import Mathlib

/-!
Shallow embedding of the Picard repository slice: the Linux dark-mode
detection module `picard/ui/theme_detect.py`, and (modelled from the spec,
since their implementation files are not part of the slice) the symlink /
relocation helpers of `picard/file.py` and the Vorbis date sanitization of
`picard/formats/vorbis.py`.

D-Bus calls, subprocess invocations and the filesystem are modelled as
explicit oracle data: a `CallOutcome` is either a reply message (with its
error flag and argument list) or a raised `RuntimeError`/`AttributeError`/
`TypeError`; subprocess results are `Option String` (the stripped stdout,
or `none` when the command fails).  Hybrid detectors return a pair
`(result, subprocessRan)` so that "no subprocess is executed" is an
observable fact of the model.
-/

/-- A value carried in a D-Bus reply argument list: the portal returns
integers, the dconf interface returns strings.  Python truthiness and the
`== 1`, `== 2` comparisons of the source are defined on this type. -/
inductive DBusValue where
  | int (n : Int)
  | str (s : String)
deriving DecidableEq, Repr

/-- Python truthiness of a D-Bus value (`if value:`). -/
def DBusValue.truthy : DBusValue → Bool
  | .int n => n != 0
  | .str s => !s.data.isEmpty

/-- Does `pat` occur at the start of `l`?  (Char-list helper, written by
structural recursion so that proofs can evaluate it in the kernel.) -/
def startsWithChars : List Char → List Char → Bool
  | [], _ => true
  | _ :: _, [] => false
  | p :: ps, c :: cs => p = c && startsWithChars ps cs

/-- Does `pat` occur anywhere in `l`? -/
def hasSubChars (pat : List Char) : List Char → Bool
  | [] => pat.isEmpty
  | c :: cs => startsWithChars pat (c :: cs) || hasSubChars pat cs

/-- ASCII lower-casing of one character, as Python's `str.lower` acts on
the ASCII values the source compares against. -/
def asciiLower (c : Char) : Char :=
  if 65 ≤ c.toNat && c.toNat ≤ 90 then Char.ofNat (c.toNat + 32) else c

/-- Python's `s.lower()` restricted to ASCII case mapping. -/
def pyLower (s : String) : String :=
  ⟨s.data.map asciiLower⟩

/-- Substring test used for Python's `"dark" in value.lower()`. -/
def strContains (s pat : String) : Bool :=
  hasSubChars pat.data s.data

/-- `isinstance(value, str) and "dark" in value.lower()` from the source. -/
def DBusValue.isDarkString : DBusValue → Bool
  | .int _ => false
  | .str s => strContains (pyLower s) "dark"

/-- A D-Bus reply message: `reply.type() == ErrorMessage` becomes the
`isError` flag, `reply.arguments()` the argument list. -/
structure DBusReply where
  isError : Bool
  arguments : List DBusValue
deriving DecidableEq, Repr

/-- Outcome of a `QDBusInterface.call`: either a reply message, or a
raised `RuntimeError`/`AttributeError`/`TypeError`. -/
inductive CallOutcome where
  | raises
  | reply (r : DBusReply)
deriving DecidableEq, Repr

/-- The `org.freedesktop.portal.Settings` interface as the detector sees
it: its validity, and the outcome of
`call("Read", "org.freedesktop.appearance", "color-scheme")`. -/
structure PortalInterface where
  valid : Bool
  readColorScheme : CallOutcome
deriving DecidableEq, Repr

/-- The `ca.desrt.dconf.Writer` interface as the detector sees it: its
validity and the outcomes of the two `Read` calls the source makes
(`/org/gnome/desktop/interface/color-scheme` and `.../gtk-theme`). -/
structure GnomeInterface where
  valid : Bool
  readColorScheme : CallOutcome
  readGtkTheme : CallOutcome
deriving DecidableEq, Repr

/-- State of a constructed `DBusThemeDetector`: after `__init__` each
interface attribute is either `None` (bus unavailable) or an interface
object. -/
structure DBusThemeDetector where
  portal_interface : Option PortalInterface
  gnome_interface : Option GnomeInterface
deriving DecidableEq, Repr

/-- `DBusThemeDetector.detect_freedesktop_portal_color_scheme`
(theme_detect.py lines 76-105): `None` for a missing or invalid interface,
a raised exception, an error reply; otherwise the first reply argument is
compared with `1` (dark) and `2` (light), anything else giving `None`. -/
def DBusThemeDetector.detect_freedesktop_portal_color_scheme
    (d : DBusThemeDetector) : Option Bool :=
  match d.portal_interface with
  | none => none
  | some iface =>
    if iface.valid then
      match iface.readColorScheme with
      | .raises => none
      | .reply r =>
        if r.isError then none
        else
          let value := r.arguments.head?
          if value = some (DBusValue.int 1) then some true
          else if value = some (DBusValue.int 2) then some false
          else none
    else none

/-- First phase of `detect_gnome_color_scheme_dbus` (lines 119-129): the
`color-scheme` read inside the first `try`.  `some r` means the source
early-returns `r`; `none` means control falls through to the gtk-theme
fallback (exception caught, error reply, or falsy first argument). -/
def gnomePhase1 (iface : GnomeInterface) : Option (Option Bool) :=
  match iface.readColorScheme with
  | .raises => none
  | .reply r =>
    if r.isError then none
    else
      match r.arguments.head? with
      | none => none
      | some v =>
        if v.truthy && v.isDarkString then some (some true)
        else if v.truthy then some (some false)
        else none

/-- The gtk-theme fallback of `detect_gnome_color_scheme_dbus`
(lines 132-141): `some true` when the value is a truthy string containing
"dark", otherwise fall through to `return None`. -/
def gnomeGtkFallback (iface : GnomeInterface) : Option Bool :=
  match iface.readGtkTheme with
  | .raises => none
  | .reply r =>
    if r.isError then none
    else
      match r.arguments.head? with
      | none => none
      | some v =>
        if v.truthy && v.isDarkString then some true else none

/-- `DBusThemeDetector.detect_gnome_color_scheme_dbus` (lines 107-143):
missing or invalid interface returns `None` directly; otherwise the
color-scheme read either early-returns, or the gtk-theme fallback is
consulted. -/
def DBusThemeDetector.detect_gnome_color_scheme_dbus
    (d : DBusThemeDetector) : Option Bool :=
  match d.gnome_interface with
  | none => none
  | some iface =>
    if iface.valid then
      match gnomePhase1 iface with
      | some r => r
      | none => gnomeGtkFallback iface
    else none

/-- Spec-side reading of the portal reply, used to state C5: the first
argument of a successful (present, valid, non-raising, non-error) portal
`Read`, and `none` in every failure mode. -/
def portalReadValueSpec (d : DBusThemeDetector) : Option DBusValue :=
  match d.portal_interface with
  | none => none
  | some iface =>
    if iface.valid then
      match iface.readColorScheme with
      | .raises => none
      | .reply r => if r.isError then none else r.arguments.head?
    else none

/-- Spec-side reading of the dconf color-scheme value: the first argument
of a successful non-error reply, `none` otherwise. -/
def gnomeColorSchemeValue (iface : GnomeInterface) : Option DBusValue :=
  match iface.readColorScheme with
  | .raises => none
  | .reply r => if r.isError then none else r.arguments.head?

/-- Spec-side reading of the dconf gtk-theme value: the first argument of
a successful non-error reply, `none` otherwise. -/
def gnomeGtkThemeValue (iface : GnomeInterface) : Option DBusValue :=
  match iface.readGtkTheme with
  | .raises => none
  | .reply r => if r.isError then none else r.arguments.head?

/-- Environment seen by the module-level detection functions: the
constructed detector (the `get_dbus_detector()` singleton), whether the
D-Bus attempt raises an exception escaping the detector methods, and the
stdout of the two gsettings subprocess commands (`none` models
`CalledProcessError`/`FileNotFoundError`). -/
structure Env where
  dbusRaises : Bool
  detector : DBusThemeDetector
  freedesktopGsettingsStdout : Option String
  gnomeGsettingsStdout : Option String
deriving DecidableEq, Repr

/-- A whitespace character for Python's `str.strip()` (space, tab,
newline, carriage return). -/
def isSpaceChar (c : Char) : Bool :=
  c.toNat = 32 || c.toNat = 9 || c.toNat = 10 || c.toNat = 13

/-- A single- or double-quote character, for `str.strip("'\x22")`. -/
def isQuoteChar (c : Char) : Bool :=
  c.toNat = 39 || c.toNat = 34

/-- Drop the characters satisfying `p` from both ends of a list. -/
def stripChars (p : Char → Bool) (l : List Char) : List Char :=
  ((l.dropWhile p).reverse.dropWhile p).reverse

/-- Python's `str.strip()`: drop leading and trailing whitespace. -/
def pyStrip (s : String) : String :=
  ⟨stripChars isSpaceChar s.data⟩

/-- Python's `str.strip("'\x22")`: drop leading and trailing single- and
double-quote characters. -/
def stripQuoteChars (s : String) : String :=
  ⟨stripChars isQuoteChar s.data⟩

/-- `gsettings_get` (theme_detect.py lines 180-197): on success the
stdout is stripped of whitespace and quotes, on subprocess failure the
function returns `None`. -/
def gsettings_get (stdout : Option String) : Option String :=
  match stdout with
  | none => none
  | some s => some (stripQuoteChars (pyStrip s))

/-- Module-level `detect_freedesktop_color_scheme_dbus` (lines 158-166):
any caught exception yields `False`, otherwise the result of the portal
method compared with `is True`. -/
def detect_freedesktop_color_scheme_dbus (env : Env) : Bool :=
  if env.dbusRaises then false
  else
    match env.detector.detect_freedesktop_portal_color_scheme with
    | some true => true
    | _ => false

/-- Module-level `detect_gnome_color_scheme_dbus` (lines 169-177): any
caught exception yields `False`, otherwise the result of the dconf method
compared with `is True`. -/
def detect_gnome_color_scheme_dbus (env : Env) : Bool :=
  if env.dbusRaises then false
  else
    match env.detector.detect_gnome_color_scheme_dbus with
    | some true => true
    | _ => false

/-- Hybrid `detect_freedesktop_color_scheme_dark` (lines 286-319).  The
first component is the returned boolean; the second records whether the
gsettings subprocess fallback was executed.  The D-Bus probe result, when
not `None`, is returned directly; otherwise the subprocess output is
stripped and compared with "1" (dark) and "0" (light), everything else
(including subprocess failure) giving `False`. -/
def detect_freedesktop_color_scheme_dark (env : Env) : Bool × Bool :=
  let dbusResult : Option Bool :=
    if env.dbusRaises then none
    else env.detector.detect_freedesktop_portal_color_scheme
  match dbusResult with
  | some b => (b, false)
  | none =>
    match env.freedesktopGsettingsStdout with
    | none => (false, true)
    | some out =>
      let value := stripQuoteChars (pyStrip out)
      if value = "1" then (true, true)
      else if value = "0" then (false, true)
      else (false, true)

/-- Hybrid `detect_gnome_color_scheme_dark` (lines 200-216).  The first
component is the returned boolean; the second records whether the
`gsettings_get("color-scheme")` subprocess fallback was executed.  The
D-Bus probe result, when not `None`, is returned directly; otherwise the
gsettings value is checked for a "dark" substring. -/
def detect_gnome_color_scheme_dark (env : Env) : Bool × Bool :=
  let dbusResult : Option Bool :=
    if env.dbusRaises then none
    else env.detector.detect_gnome_color_scheme_dbus
  match dbusResult with
  | some b => (b, false)
  | none =>
    match gsettings_get env.gnomeGsettingsStdout with
    | none => (false, true)
    | some value =>
      if !value.data.isEmpty && strContains (pyLower value) "dark" then
        (true, true)
      else (false, true)

/-- Tags naming the seven strategy functions that
`get_linux_dark_mode_strategies` returns, one per source function. -/
inductive Strategy where
  | freedesktop_color_scheme_dbus
  | gnome_color_scheme_dbus
  | freedesktop_color_scheme_dark
  | gnome_dark_wrapper
  | kde_dark_wrapper
  | xfce_dark_wrapper
  | lxqt_dark_wrapper
deriving DecidableEq, Repr

/-- `get_linux_dark_mode_strategies` (theme_detect.py lines 368-381), as
the ordered list of strategy tags exactly as the source lists the
functions. -/
def get_linux_dark_mode_strategies : List Strategy :=
  [ Strategy.freedesktop_color_scheme_dbus
  , Strategy.gnome_color_scheme_dbus
  , Strategy.freedesktop_color_scheme_dark
  , Strategy.gnome_dark_wrapper
  , Strategy.kde_dark_wrapper
  , Strategy.xfce_dark_wrapper
  , Strategy.lxqt_dark_wrapper ]

/-- `get_dbus_detector` (lines 150-155) with the module global
`_dbus_detector` passed as explicit state.  `newDetector` is the instance
`DBusThemeDetector()` would construct; the function returns the detector
handed to the caller and the new value of the global. -/
def get_dbus_detector (g : Option DBusThemeDetector)
    (newDetector : DBusThemeDetector) :
    DBusThemeDetector × Option DBusThemeDetector :=
  match g with
  | none => (newDetector, some newDetector)
  | some d => (d, some d)

/-- An observable filesystem mutation performed by `_create_symlink`. -/
inductive FsOp where
  | remove (p : String)
  | symlink (src dst : String)
deriving DecidableEq, Repr

/-- Filesystem oracle for `_create_symlink`: the `os.path` predicates the
routine consults. -/
structure SymlinkFS where
  islink : String → Bool
  readlink : String → String
  abspath : String → String
  pathExists : String → Bool

/-- `errno.EEXIST`. -/
def errnoEEXIST : Nat := 17

/-- Modelled from the spec: `File._create_symlink(src, dst)` of
`picard/file.py`, whose implementation is not part of the repository
slice (only `test/file_move/test_symlink_files.py` is).  Per the spec's
"idempotent symlink creation, conflict detection": when `dst` is already
a symlink whose target equals `src` after `abspath` normalization,
nothing is done; when `dst` exists and is not a symlink, `OSError` with
`errno.EEXIST` is raised; otherwise a stale symlink is replaced and the
link is created.  The result lists the mutations performed. -/
def createSymlink (fs : SymlinkFS) (src dst : String) :
    Except Nat (List FsOp) :=
  if fs.islink dst then
    if fs.abspath (fs.readlink dst) = fs.abspath src then Except.ok []
    else Except.ok [FsOp.remove dst, FsOp.symlink src dst]
  else if fs.pathExists dst then Except.error errnoEEXIST
  else Except.ok [FsOp.symlink src dst]

/-- The three configuration flags `_relocate_if_required` consults. -/
structure RelocateConfig where
  rename_files : Bool
  move_files : Bool
  symlink_files : Bool
deriving DecidableEq, Repr

/-- Modelled from the spec: `File._relocate_if_required` of
`picard/file.py`, whose implementation is not part of the repository
slice.  Per the spec's "conditional file-system operations guarded by
configuration lookups" and the test expectations: with no flag set the
input filename is returned unchanged; in symlink mode the computed new
filename is returned when `_create_symlink` succeeds and the original
filename when it raises `OSError`; in move/rename mode the computed new
filename is returned. -/
def relocateIfRequired (fs : SymlinkFS) (cfg : RelocateConfig)
    (filename newFilename : String) : String :=
  if cfg.symlink_files then
    match createSymlink fs filename newFilename with
    | Except.error _ => filename
    | Except.ok _ => newFilename
  else if cfg.rename_files || cfg.move_files then newFilename
  else filename

/-- Split a character list on the separator "-" (ASCII 45). -/
def splitDashAux : List Char → List Char → List (List Char)
  | [], acc => [acc.reverse]
  | c :: cs, acc =>
    if c.toNat = 45 then acc.reverse :: splitDashAux cs []
    else splitDashAux cs (c :: acc)

/-- A date component whose numeric value is zero: nonempty and made of
"0" digits only. -/
def isZeroPart (p : List Char) : Bool :=
  !p.isEmpty && p.all (fun c => c.toNat = 48)

/-- Rejoin date components with "-". -/
def joinDash : List (List Char) → List Char
  | [] => []
  | [p] => p
  | p :: ps => p ++ Char.ofNat 45 :: joinDash ps

/-- Modelled from the spec: the date sanitization applied by
`picard/formats/vorbis.py` (not part of the repository slice): trailing
date components whose numeric value is zero are stripped, and the
remaining components are rejoined with "-". -/
def sanitizeDate (s : String) : String :=
  let parts := splitDashAux s.data []
  let kept := (parts.reverse.dropWhile isZeroPart).reverse
  ⟨joinDash kept⟩

/-- The configuration consulted by the Vorbis format code. -/
structure VorbisConfig where
  disable_date_sanitization_formats : List String
deriving DecidableEq, Repr

/-- Modelled from the spec: `is_date_sanitization_enabled` for the vorbis
format — sanitization is enabled iff "vorbis" is not listed in
`disable_date_sanitization_formats`. -/
def is_date_sanitization_enabled (cfg : VorbisConfig) : Bool :=
  !(cfg.disable_date_sanitization_formats.contains "vorbis")

/-- Modelled from the spec: the date tag value produced by loading an Ogg
Vorbis file whose raw date tag is `raw` — sanitized when enabled, raw
otherwise. -/
def vorbisLoadDate (cfg : VorbisConfig) (raw : String) : String :=
  if is_date_sanitization_enabled cfg then sanitizeDate raw else raw

/-- Modelled from the spec: the date tag value written when saving an Ogg
Vorbis file from metadata date `value` — sanitized when enabled, raw
otherwise. -/
def vorbisSaveDate (cfg : VorbisConfig) (value : String) : String :=
  if is_date_sanitization_enabled cfg then sanitizeDate value else value

/-- Filesystem oracle mirroring `test_create_symlink_idempotent`: every
path is reported as a symlink, `readlink` answers "/a/b", and `abspath`
normalizes every path to "/a/b". -/
def fsIdempotent : SymlinkFS :=
  { islink := fun _ => true
  , readlink := fun _ => "/a/b"
  , abspath := fun _ => "/a/b"
  , pathExists := fun _ => true }

/-- Filesystem oracle mirroring
`test_create_symlink_existing_not_symlink_raises`: the destination exists
but is not a symlink. -/
def fsConflict : SymlinkFS :=
  { islink := fun _ => false
  , readlink := fun _ => ""
  , abspath := fun p => p
  , pathExists := fun _ => true }

/-- A detector whose portal read answers `1` (prefer dark) and whose
dconf color-scheme read answers "prefer-dark". -/
def detectorBothDark : DBusThemeDetector :=
  { portal_interface := some
      { valid := true
      , readColorScheme :=
          CallOutcome.reply { isError := false, arguments := [DBusValue.int 1] } }
  , gnome_interface := some
      { valid := true
      , readColorScheme :=
          CallOutcome.reply
            { isError := false, arguments := [DBusValue.str "prefer-dark"] }
      , readGtkTheme := CallOutcome.raises } }

/-- Environment built on `detectorBothDark` with no usable gsettings
output. -/
def envBothDark : Env :=
  { dbusRaises := false
  , detector := detectorBothDark
  , freedesktopGsettingsStdout := none
  , gnomeGsettingsStdout := none }

/-- The dconf interface of the C6 counterexample: color-scheme reads as
the truthy value "default" (names neither dark nor light), gtk-theme
reads as "Adwaita-dark". -/
def c6Iface : GnomeInterface :=
  { valid := true
  , readColorScheme :=
      CallOutcome.reply { isError := false, arguments := [DBusValue.str "default"] }
  , readGtkTheme :=
      CallOutcome.reply
        { isError := false, arguments := [DBusValue.str "Adwaita-dark"] } }

/-- Detector wrapping `c6Iface`. -/
def c6Detector : DBusThemeDetector :=
  { portal_interface := none, gnome_interface := some c6Iface }

/-- A dconf interface whose color-scheme read yields an error reply and
whose gtk-theme reads as "Yaru-dark": the fallback genuinely runs. -/
def gtkFallbackIface : GnomeInterface :=
  { valid := true
  , readColorScheme := CallOutcome.reply { isError := true, arguments := [] }
  , readGtkTheme :=
      CallOutcome.reply
        { isError := false, arguments := [DBusValue.str "Yaru-dark"] } }

/-- C1: symlink creation is idempotent — when `dst` is already a symlink
whose target equals `src` after `abspath` normalization, `_create_symlink`
performs no filesystem mutation (no remove, no symlink) and succeeds. -/
theorem createSymlink_idempotent (fs : SymlinkFS) (src dst : String)
    (hlink : fs.islink dst = true)
    (htarget : fs.abspath (fs.readlink dst) = fs.abspath src) :
    createSymlink fs src dst = Except.ok [] := by
  simp [createSymlink, hlink, htarget]

/-- Witness for C1, on the inputs of `test_create_symlink_idempotent`. -/
theorem createSymlink_idempotent_witness :
    createSymlink fsIdempotent "/a/b" "/c/d" = Except.ok [] :=
  createSymlink_idempotent fsIdempotent "/a/b" "/c/d" rfl rfl

/-- C2: symlink creation detects conflicts — when `dst` exists and is not
a symlink, `_create_symlink` raises `OSError` with `errno.EEXIST`. -/
theorem createSymlink_conflict_eexist (fs : SymlinkFS) (src dst : String)
    (hnolink : fs.islink dst = false)
    (hexists : fs.pathExists dst = true) :
    createSymlink fs src dst = Except.error errnoEEXIST := by
  simp [createSymlink, hnolink, hexists]

/-- Witness for C2, on the inputs of
`test_create_symlink_existing_not_symlink_raises`. -/
theorem createSymlink_conflict_eexist_witness :
    createSymlink fsConflict "/src/file.mp3" "/dest/file.mp3" =
      Except.error errnoEEXIST :=
  createSymlink_conflict_eexist fsConflict "/src/file.mp3" "/dest/file.mp3"
    rfl rfl

/-- C3: each hybrid detector tries D-Bus before spawning a subprocess —
when the D-Bus probe yields `some b`, the hybrid returns `b` with no
subprocess executed, and whenever the subprocess fallback runs, the probe
either raised or returned `None`. -/
theorem hybrid_detectors_try_dbus_first (env : Env) :
    (∀ b : Bool, env.dbusRaises = false →
      env.detector.detect_freedesktop_portal_color_scheme = some b →
      detect_freedesktop_color_scheme_dark env = (b, false))
    ∧ (∀ b : Bool, env.dbusRaises = false →
      env.detector.detect_gnome_color_scheme_dbus = some b →
      detect_gnome_color_scheme_dark env = (b, false))
    ∧ ((detect_freedesktop_color_scheme_dark env).2 = true →
      env.dbusRaises = true ∨
        env.detector.detect_freedesktop_portal_color_scheme = none)
    ∧ ((detect_gnome_color_scheme_dark env).2 = true →
      env.dbusRaises = true ∨
        env.detector.detect_gnome_color_scheme_dbus = none) := by
  refine ⟨?_, ?_, ?_, ?_⟩
  · intro b hr hp
    simp [detect_freedesktop_color_scheme_dark, hr, hp]
  · intro b hr hp
    simp [detect_gnome_color_scheme_dark, hr, hp]
  · intro h
    by_cases hr : env.dbusRaises = true
    · exact Or.inl hr
    · rw [Bool.not_eq_true] at hr
      rcases hp : env.detector.detect_freedesktop_portal_color_scheme with _ | b
      · exact Or.inr rfl
      · simp [detect_freedesktop_color_scheme_dark, hr, hp] at h
  · intro h
    by_cases hr : env.dbusRaises = true
    · exact Or.inl hr
    · rw [Bool.not_eq_true] at hr
      rcases hp : env.detector.detect_gnome_color_scheme_dbus with _ | b
      · exact Or.inr rfl
      · simp [detect_gnome_color_scheme_dark, hr, hp] at h

/-- Witness for C3: with both D-Bus probes answering dark, both hybrids
return `true` without running a subprocess. -/
theorem hybrid_detectors_try_dbus_first_witness :
    detect_freedesktop_color_scheme_dark envBothDark = (true, false) ∧
    detect_gnome_color_scheme_dark envBothDark = (true, false) :=
  ⟨(hybrid_detectors_try_dbus_first envBothDark).1 true rfl rfl,
   (hybrid_detectors_try_dbus_first envBothDark).2.1 true rfl rfl⟩

/-- C4: `get_linux_dark_mode_strategies` is a fixed list of exactly seven
strategies, the two pure D-Bus detectors first, then the hybrid
freedesktop detector and the GNOME, KDE, XFCE and LXQt wrappers in that
order. -/
theorem linux_strategies_order :
    get_linux_dark_mode_strategies.length = 7
    ∧ get_linux_dark_mode_strategies.take 2 =
        [Strategy.freedesktop_color_scheme_dbus,
         Strategy.gnome_color_scheme_dbus]
    ∧ get_linux_dark_mode_strategies.drop 2 =
        [Strategy.freedesktop_color_scheme_dark,
         Strategy.gnome_dark_wrapper,
         Strategy.kde_dark_wrapper,
         Strategy.xfce_dark_wrapper,
         Strategy.lxqt_dark_wrapper] := by
  refine ⟨rfl, rfl, rfl⟩

/-- Bridge for C5: the portal detector equals the comparison of the
successful reply's first argument with `1` and `2`. -/
theorem portalDetectEq (d : DBusThemeDetector) :
    d.detect_freedesktop_portal_color_scheme =
      (if portalReadValueSpec d = some (DBusValue.int 1) then some true
       else if portalReadValueSpec d = some (DBusValue.int 2) then some false
       else none) := by
  rcases d with ⟨pi, gi⟩
  rcases pi with _ | ⟨valid, call⟩
  · rfl
  · cases valid
    · rfl
    · rcases call with _ | ⟨isErr, args⟩
      · rfl
      · cases isErr
        · rfl
        · rfl

/-- C5: `detect_freedesktop_portal_color_scheme` maps the portal reply to
a tri-state result: `True` exactly when the successful reply's first
argument is `1`, `False` exactly when it is `2`, `None` in every other
case (value 0 or anything else, empty argument list, error reply, invalid
or missing interface, raised RuntimeError/AttributeError/TypeError —
`portalReadValueSpec` is `none` in all those failure modes). -/
theorem portal_color_scheme_tristate (d : DBusThemeDetector) :
    (d.detect_freedesktop_portal_color_scheme = some true ↔
      portalReadValueSpec d = some (DBusValue.int 1))
    ∧ (d.detect_freedesktop_portal_color_scheme = some false ↔
      portalReadValueSpec d = some (DBusValue.int 2))
    ∧ (d.detect_freedesktop_portal_color_scheme = none ↔
      (portalReadValueSpec d ≠ some (DBusValue.int 1) ∧
       portalReadValueSpec d ≠ some (DBusValue.int 2))) := by
  rw [portalDetectEq d]
  by_cases h1 : portalReadValueSpec d = some (DBusValue.int 1)
  · simp [h1]
  · by_cases h2 : portalReadValueSpec d = some (DBusValue.int 2)
    · simp [h1, h2]
    · simp [h1, h2]

/-- Witness for C5: a portal reply carrying `1` is reported as dark. -/
theorem portal_color_scheme_tristate_witness :
    detectorBothDark.detect_freedesktop_portal_color_scheme = some true :=
  (portal_color_scheme_tristate detectorBothDark).1.mpr rfl

/-- C6 counterexample: the claim predicts that a color-scheme value
"default" (naming neither dark nor light) leads to the gtk-theme fallback
being consulted, which here reads "Adwaita-dark" and would give `True`;
the code instead early-returns `False` on the truthy non-dark
color-scheme value, never consulting gtk-theme. -/
theorem gnome_fallback_counterexample :
    c6Detector.detect_gnome_color_scheme_dbus = some false
    ∧ c6Detector.detect_gnome_color_scheme_dbus ≠ some true
    ∧ gnomePhase1 c6Iface = some (some false)
    ∧ gnomeGtkFallback c6Iface = some true := by
  decide

/-- C6 amended: the gtk-theme fallback is consulted exactly when the
color-scheme read fails to produce a truthy value (exception, error
reply, empty or falsy first argument); a truthy color-scheme value not
containing "dark" — such as "default" — returns `False` immediately
without the fallback; and when the fallback is consulted it returns
`True` iff the gtk-theme value is a truthy string containing "dark". -/
theorem gnome_fallback_amended (iface : GnomeInterface)
    (hv : iface.valid = true) :
    (gnomePhase1 iface = none →
      DBusThemeDetector.detect_gnome_color_scheme_dbus ⟨none, some iface⟩ =
        gnomeGtkFallback iface)
    ∧ (∀ v : DBusValue, gnomeColorSchemeValue iface = some v →
        v.truthy = true → v.isDarkString = false →
        gnomePhase1 iface = some (some false) ∧
        DBusThemeDetector.detect_gnome_color_scheme_dbus ⟨none, some iface⟩ =
          some false)
    ∧ (gnomeGtkFallback iface = some true ↔
        ∃ v : DBusValue, gnomeGtkThemeValue iface = some v ∧
          v.truthy = true ∧ v.isDarkString = true) := by
  refine ⟨?_, ?_, ?_⟩
  · intro h
    simp [DBusThemeDetector.detect_gnome_color_scheme_dbus, hv, h]
  · intro v hval htruthy hdark
    have hph : gnomePhase1 iface = some (some false) := by
      rcases hc : iface.readColorScheme with _ | r
      · simp [gnomeColorSchemeValue, hc] at hval
      · simp [gnomeColorSchemeValue, hc] at hval
        cases he : r.isError
        · rw [he] at hval
          simp at hval
          simp [gnomePhase1, hc, he, hval, htruthy, hdark]
        · rw [he] at hval
          simp at hval
    exact ⟨hph,
      by simp [DBusThemeDetector.detect_gnome_color_scheme_dbus, hv, hph]⟩
  · rcases hg : iface.readGtkTheme with _ | r
    · simp [gnomeGtkFallback, gnomeGtkThemeValue, hg]
    · cases he : r.isError
      · rcases hh : r.arguments.head? with _ | v
        · simp [gnomeGtkFallback, gnomeGtkThemeValue, hg, he, hh]
        · by_cases hb : (v.truthy && v.isDarkString) = true
          · rw [Bool.and_eq_true] at hb
            simp [gnomeGtkFallback, gnomeGtkThemeValue, hg, he, hh, hb.1,
              hb.2]
          · rw [Bool.and_eq_true] at hb
            push_neg at hb
            simp [gnomeGtkFallback, gnomeGtkThemeValue, hg, he, hh]
      · simp [gnomeGtkFallback, gnomeGtkThemeValue, hg, he]

/-- Witness for the C6 amended theorem: an error color-scheme reply makes
the detector consult gtk-theme, which reads "Yaru-dark". -/
theorem gnome_fallback_amended_witness :
    DBusThemeDetector.detect_gnome_color_scheme_dbus
        ⟨none, some gtkFallbackIface⟩ = gnomeGtkFallback gtkFallbackIface ∧
    gnomeGtkFallback gtkFallbackIface = some true :=
  ⟨(gnome_fallback_amended gtkFallbackIface rfl).1 rfl, by decide⟩

/-- C7: `_relocate_if_required` leaves the path unchanged when no
relocation applies (all three flags false) and when symlink mode is
enabled but `_create_symlink` raises `OSError`. -/
theorem relocate_returns_original (fs : SymlinkFS) (cfg : RelocateConfig)
    (filename newFilename : String) :
    (cfg.rename_files = false → cfg.move_files = false →
      cfg.symlink_files = false →
      relocateIfRequired fs cfg filename newFilename = filename)
    ∧ (∀ e : Nat, cfg.symlink_files = true →
      createSymlink fs filename newFilename = Except.error e →
      relocateIfRequired fs cfg filename newFilename = filename) := by
  constructor
  · intro h1 h2 h3
    simp [relocateIfRequired, h1, h2, h3]
  · intro e hs he
    simp [relocateIfRequired, hs, he]

/-- Witness for C7, on the inputs of
`test_relocate_no_changes_returns_original` and
`test_relocate_symlink_failure_returns_original`. -/
theorem relocate_returns_original_witness :
    relocateIfRequired fsConflict ⟨false, false, false⟩ "/src/file.mp3"
        "/dest/Album/file.mp3" = "/src/file.mp3" ∧
    relocateIfRequired fsConflict ⟨false, false, true⟩ "/src/file.mp3"
        "/dest/Album/file.mp3" = "/src/file.mp3" :=
  ⟨(relocate_returns_original fsConflict ⟨false, false, false⟩
      "/src/file.mp3" "/dest/Album/file.mp3").1 rfl rfl rfl,
   (relocate_returns_original fsConflict ⟨false, false, true⟩
      "/src/file.mp3" "/dest/Album/file.mp3").2 errnoEEXIST rfl rfl⟩

/-- C8: with sanitization enabled for vorbis, loading strips zero-valued
trailing date components ("2005-12-00" → "2005-12", "2005-00-00" →
"2005", "0000-00-00" → "") and keeps dates with a nonzero trailing day
unchanged; with "vorbis" listed in `disable_date_sanitization_formats`,
saving preserves the raw date value. -/
theorem vorbis_date_sanitization_cases :
    vorbisLoadDate ⟨[]⟩ "2005-12-00" = "2005-12"
    ∧ vorbisLoadDate ⟨[]⟩ "2005-00-00" = "2005"
    ∧ vorbisLoadDate ⟨[]⟩ "0000-00-00" = ""
    ∧ vorbisLoadDate ⟨[]⟩ "2005-00-12" = "2005-00-12"
    ∧ vorbisLoadDate ⟨[]⟩ "0000-00-12" = "0000-00-12"
    ∧ (∀ raw : String, vorbisSaveDate ⟨["vorbis"]⟩ raw = raw)
    ∧ vorbisSaveDate ⟨["vorbis"]⟩ "2005-12-00" = "2005-12-00"
    ∧ is_date_sanitization_enabled ⟨[]⟩ = true
    ∧ is_date_sanitization_enabled ⟨["vorbis"]⟩ = false :=
  ⟨rfl, rfl, rfl, rfl, rfl, fun _ => rfl, rfl, rfl, rfl⟩

/-- C9: the module-level D-Bus detectors are total boolean functions that
answer `true` exactly when no exception escaped and the underlying
detector method returned exactly `True`; `None`, `False` and raised
exceptions all give `false`. -/
theorem module_dbus_detectors_total (env : Env) :
    (detect_freedesktop_color_scheme_dbus env = true ↔
      env.dbusRaises = false ∧
        env.detector.detect_freedesktop_portal_color_scheme = some true)
    ∧ (detect_gnome_color_scheme_dbus env = true ↔
      env.dbusRaises = false ∧
        env.detector.detect_gnome_color_scheme_dbus = some true) := by
  constructor
  · by_cases hr : env.dbusRaises = true
    · simp [detect_freedesktop_color_scheme_dbus, hr]
    · rw [Bool.not_eq_true] at hr
      rcases hp : env.detector.detect_freedesktop_portal_color_scheme
          with _ | b
      · simp [detect_freedesktop_color_scheme_dbus, hr, hp]
      · cases b <;> simp [detect_freedesktop_color_scheme_dbus, hr, hp]
  · by_cases hr : env.dbusRaises = true
    · simp [detect_gnome_color_scheme_dbus, hr]
    · rw [Bool.not_eq_true] at hr
      rcases hp : env.detector.detect_gnome_color_scheme_dbus with _ | b
      · simp [detect_gnome_color_scheme_dbus, hr, hp]
      · cases b <;> simp [detect_gnome_color_scheme_dbus, hr, hp]

/-- Witness for C9: with dark D-Bus answers and no exception, both
module-level detectors answer `true`. -/
theorem module_dbus_detectors_total_witness :
    detect_freedesktop_color_scheme_dbus envBothDark = true ∧
    detect_gnome_color_scheme_dbus envBothDark = true :=
  ⟨(module_dbus_detectors_total envBothDark).1.mpr ⟨rfl, rfl⟩,
   (module_dbus_detectors_total envBothDark).2.mpr ⟨rfl, rfl⟩⟩

/-- C10: `get_dbus_detector` is a memoizing singleton — after any call
the global is non-`None`; a first call (global `None`) stores and returns
the freshly constructed detector; any later call returns the stored
detector unchanged, ignoring the would-be new construction. -/
theorem get_dbus_detector_singleton (g : Option DBusThemeDetector)
    (newDetector : DBusThemeDetector) :
    ((get_dbus_detector g newDetector).2).isSome = true
    ∧ (g = none →
        get_dbus_detector g newDetector = (newDetector, some newDetector))
    ∧ (∀ d : DBusThemeDetector, g = some d →
        get_dbus_detector g newDetector = (d, some d)) := by
  cases g <;> simp [get_dbus_detector]

/-- Witness for C10: the first call stores the constructed detector, a
second call returns the stored one even though the constructor would now
build a different detector. -/
theorem get_dbus_detector_singleton_witness :
    get_dbus_detector none detectorBothDark =
        (detectorBothDark, some detectorBothDark) ∧
    get_dbus_detector (some detectorBothDark) c6Detector =
        (detectorBothDark, some detectorBothDark) :=
  ⟨(get_dbus_detector_singleton none detectorBothDark).2.1 rfl,
   (get_dbus_detector_singleton (some detectorBothDark) c6Detector).2.2
     detectorBothDark rfl⟩
